import Mathlib

set_option autoImplicit false

/-! Verification of the DPS reconciliation pipeline against its design notes.

Shallow embedding of the reconciliation-relevant functions of
src/DPS/receivedps.py, src/DPS/send2dps.py and src/DPS/util.py:
the fiscal period calculator, status recoding, the identity join,
the age and episode-window filters, status-priority deduplication,
the report set builder and the fixed-width outbound file writer.

Pandas semantics are carried over explicitly: missing values are
Option.none; comparisons against a missing value are false; multi-key
sorts are stable with missing keys placed last; groupby drops rows whose
group key is missing, orders groups by ascending key, and takes the first
non-missing value of every column inside each group. -/

/-- Calendar date as in Python datetime.date. Ordering is by the numeric
key below, which agrees with (year, month, day) lexicographic order on
well-formed dates. -/
structure Date where
  year : Nat
  month : Nat
  day : Nat
deriving DecidableEq, Repr

def Date.key (d : Date) : Nat := d.year * 10000 + d.month * 100 + d.day

/-- Well-formedness of a Python datetime.date value: months run 1..12 and
days 1..31 (Python enforces exact month lengths; the looser bound is all
the proofs need). -/
def Date.Wf (d : Date) : Prop := 1 ≤ d.month ∧ d.month ≤ 12 ∧ 1 ≤ d.day ∧ d.day ≤ 31

instance (d : Date) : Decidable d.Wf := by
  unfold Date.Wf
  infer_instance

/-! Fiscal period calculator (src/DPS/util.py). -/

/-- util.get_fiscal_year: dates in September or later belong to the next
calendar year's fiscal year. -/
def get_fiscal_year (d : Date) : Nat :=
  if 9 ≤ d.month then d.year + 1 else d.year

/-- The quarter_map dictionary of util.get_query_period; a month outside
1..12 is a KeyError, modelled as none. -/
def quarterMap (m : Nat) : Option Nat :=
  if m = 12 ∨ m = 1 ∨ m = 2 then some 1
  else if m = 3 ∨ m = 4 ∨ m = 5 then some 2
  else if m = 6 ∨ m = 7 ∨ m = 8 then some 3
  else if m = 9 ∨ m = 10 ∨ m = 11 then some 4
  else none

/-- util.get_query_period: fiscal year, quarter (none for the full-year
September catch-up mode) and the period label. -/
def get_query_period (d : Date) : Option (Nat × Option Nat × String) :=
  let cfy := get_fiscal_year d
  if d.month = 9 ∧ 20 ≤ d.day then
    some (cfy - 1, none, "FY" ++ toString (cfy - 1))
  else
    match quarterMap d.month with
    | none => none
    | some q =>
      let fy := if d.month = 9 ∨ d.month = 10 ∨ d.month = 11 then cfy - 1 else cfy
      some (fy, some q, "FY" ++ toString fy ++ "_Q" ++ toString q)

/-- util.get_fiscal_year_dates: Sep 1 of the previous calendar year to
Aug 31 of the fiscal year. -/
def get_fiscal_year_dates (fy : Nat) : Date × Date :=
  (⟨fy - 1, 9, 1⟩, ⟨fy, 8, 31⟩)

/-- util.get_quarter_dates; an invalid quarter raises ValueError,
modelled as none. -/
def get_quarter_dates (fy : Nat) (q : Nat) : Option (Date × Date) :=
  if q = 1 then some (⟨fy - 1, 9, 1⟩, ⟨fy - 1, 11, 30⟩)
  else if q = 2 then some (⟨fy - 1, 12, 1⟩, ⟨fy, 2, 28⟩)
  else if q = 3 then some (⟨fy, 3, 1⟩, ⟨fy, 5, 31⟩)
  else if q = 4 then some (get_fiscal_year_dates fy)
  else none

/-! Status recoding and sex codes. -/

/-- The status_map lookup with fillna fallback of
receivedps.handle_status_and_deduplicate: the four recognized codes get a
numeric sorting priority; anything else passes through unchanged. -/
def recodeStatus (s : String) : String :=
  if s = "ACTV" then ("2ACTV")
  else if s = "CANC" then ("4CANC")
  else if s = "CLRD" then ("3CLRD")
  else if s = "LOC" then ("1LOC")
  else s

/-- The Gender -> Sex dictionary of send2dps.create_final_dataset; values
outside the dictionary map to none (pandas NaN). -/
def genderMap (g : Option String) : Option String :=
  match g with
  | some s => if s = "Male" then some ("M") else if s = "Female" then some ("F") else none
  | none => none

/-- send2dps.create_final_dataset: Gender mapped through genderMap with
fillna of the letter U. -/
def sexCode (g : Option String) : String :=
  match genderMap g with
  | some s => s
  | none => "U"

/-! Claims about the leaf functions. -/

/-- Claim C5: for every run date on or after September 20th the fiscal
period calculator returns the entire just-closed fiscal year with
quarter = none; and for quarter-qualified run dates in September (before
the 20th), October or November it returns quarter 4 attributed to the
fiscal year of the run date minus one. -/
theorem claimC5 (d : Date) :
    (d.month = 9 → 20 ≤ d.day →
      get_query_period d =
        some (get_fiscal_year d - 1, none, "FY" ++ toString (get_fiscal_year d - 1)))
    ∧ ((d.month = 10 ∨ d.month = 11 ∨ (d.month = 9 ∧ d.day < 20)) →
      get_query_period d =
        some (get_fiscal_year d - 1, some 4,
          "FY" ++ toString (get_fiscal_year d - 1) ++ "_Q" ++ toString 4)) := by
  constructor
  · intro h9 h20
    simp [get_query_period, h9, h20]
  · intro h
    rcases h with h | h | h
    · simp [get_query_period, quarterMap, h]
    · simp [get_query_period, quarterMap, h]
    · have hq : ¬ (d.month = 9 ∧ 20 ≤ d.day) := by omega
      simp [get_query_period, quarterMap, h.1, hq]
      omega

theorem claimC5_witness :
    get_query_period ⟨2025, 9, 25⟩ = some (2025, none, "FY" ++ toString 2025)
    ∧ get_query_period ⟨2025, 10, 3⟩ =
        some (2025, some 4, "FY" ++ toString 2025 ++ "_Q" ++ toString 4) := by
  constructor
  · exact (claimC5 ⟨2025, 9, 25⟩).1 rfl (by decide)
  · exact (claimC5 ⟨2025, 10, 3⟩).2 (Or.inl rfl)

/-- Claim C8: for every fiscal year the quarter-boundary function returns
Feb 28 of the fiscal year as the Q2 end date, with no leap-year special
case (never Feb 29). -/
theorem claimC8 (fy : Nat) (h : 1 ≤ fy) :
    get_quarter_dates fy 2 = some (⟨fy - 1, 12, 1⟩, ⟨fy, 2, 28⟩)
    ∧ ∀ p, get_quarter_dates fy 2 = some p → p.2.day = 28 ∧ p.2.day ≠ 29 := by
  refine ⟨by simp [get_quarter_dates], ?_⟩
  intro p hp
  simp [get_quarter_dates] at hp
  subst hp
  refine ⟨rfl, ?_⟩
  show (28 : Nat) ≠ 29
  omega

theorem claimC8_witness :
    get_quarter_dates 2024 2 = some (⟨2023, 12, 1⟩, ⟨2024, 2, 28⟩) :=
  (claimC8 2024 (by decide)).1

/-- Claim C7: for every input row whose status code is not one of the four
recognized codes, status recoding passes the original string through
unchanged. -/
theorem claimC7 (s : String)
    (h : ¬ (s = "ACTV" ∨ s = "CANC" ∨ s = "CLRD" ∨ s = "LOC")) :
    recodeStatus s = s := by
  push_neg at h
  simp [recodeStatus, h.1, h.2.1, h.2.2.1, h.2.2.2]

theorem claimC7_witness : recodeStatus ("UNKN") = "UNKN" :=
  claimC7 ("UNKN") (by decide)

/-- Claim C10: the emitted sex code is M exactly when the gender field is
the string Male, F exactly when it is Female, and U for every other value
including a missing gender. -/
theorem claimC10 (g : Option String) :
    (sexCode g = "M" ↔ g = some ("Male"))
    ∧ (sexCode g = "F" ↔ g = some ("Female"))
    ∧ (g ≠ some ("Male") → g ≠ some ("Female") → sexCode g = "U") := by
  match g with
  | none => refine ⟨by simp [sexCode, genderMap], by simp [sexCode, genderMap], ?_⟩
            intro _ _
            simp [sexCode, genderMap]
  | some s =>
    by_cases hm : s = "Male"
    · subst hm
      refine ⟨by simp [sexCode, genderMap], by simp [sexCode, genderMap], ?_⟩
      intro h _
      exact absurd rfl h
    · by_cases hf : s = "Female"
      · subst hf
        refine ⟨by simp [sexCode, genderMap], by simp [sexCode, genderMap], ?_⟩
        intro _ h
        exact absurd rfl h
      · refine ⟨?_, ?_, ?_⟩
        · simp [sexCode, genderMap, hm, hf]
        · simp [sexCode, genderMap, hm, hf]
        · intro _ _
          simp [sexCode, genderMap, hm, hf]

theorem claimC10_witness :
    sexCode (some ("Female")) = "F" ∧ sexCode none = "U" := by
  constructor
  · exact (claimC10 (some ("Female"))).2.1.mpr rfl
  · exact (claimC10 none).2.2 (by decide) (by decide)

/-! Fixed-width outbound file (send2dps.write_fixed_width_file). -/

/-- Python str() on a possibly missing pandas value: astype(str) renders a
missing value as the three-letter string nan. -/
def pyStr (o : Option String) : String :=
  match o with
  | some s => s
  | none => "nan"

/-- Python str.strip: drop leading and trailing whitespace. -/
def stripStr (s : String) : String :=
  String.mk (((s.data.dropWhile Char.isWhitespace).reverse.dropWhile
    Char.isWhitespace).reverse)

/-- First n characters of a string, Python s[:n]. -/
def takeChars (s : String) (n : Nat) : String := String.mk (s.data.take n)

/-- Python str.ljust: pad on the right with spaces up to width w. -/
def ljust (s : String) (w : Nat) : String :=
  String.mk (s.data ++ List.replicate (w - s.data.length) ' ')

/-- Zero-padded decimal rendering of width w, as produced by strftime for
the month and day fields; for the year field strftime emits the plain
digits, which coincides with this because every pandas Timestamp year has
exactly four digits. -/
def zfill (w : Nat) (n : Nat) : String :=
  String.mk (List.replicate (w - (Nat.repr n).length) '0' ++ (Nat.repr n).data)

/-- strftime with the ISO year-month-day format. -/
def formatDate (d : Date) : String :=
  zfill 4 d.year ++ "-" ++ zfill 2 d.month ++ "-" ++ zfill 2 d.day

/-- pd.to_datetime with coercion of errors: a date outside the pandas
Timestamp range (1677-09-21 to 2262-04-11) becomes missing. -/
def toTimestamp (d : Date) : Option Date :=
  if 16770921 ≤ d.key ∧ d.key ≤ 22620411 then some d else none

def coerceDob (o : Option Date) : Option Date := o.bind toTimestamp

/-- One row of the dataframe handed to write_fixed_width_file: the Name,
Date_of_Birth and Sex columns. -/
structure FRow where
  name : Option String
  dob : Option Date
  sex : Option String
deriving DecidableEq, Repr

/-- The validation mask of write_fixed_width_file: all three fields
present (date of birth after to_datetime coercion) and name and sex
nonempty after str() and strip(). -/
def validRow (r : FRow) : Bool :=
  r.name.isSome && (coerceDob r.dob).isSome && r.sex.isSome
    && decide (0 < (stripStr (pyStr r.name)).length)
    && decide (0 < (stripStr (pyStr r.sex)).length)

/-- The emitted record for a validated row whose coerced date of birth is
d: name stripped, truncated to 30 and left-justified to 30; the ISO date;
the first character of the stripped sex code. The newline terminator is
not part of the counted line. -/
def formatLine (r : FRow) (d : Date) : String :=
  ljust (takeChars (stripStr (pyStr r.name)) 30) 30 ++ formatDate d
    ++ takeChars (stripStr (pyStr r.sex)) 1

/-- write_fixed_width_file: deduplicate the three projected columns,
validate, format. -/
def write_fixed_width_lines (rows : List FRow) : List String :=
  (rows.dedup.filter validRow).filterMap
    (fun r => (coerceDob r.dob).map (formatLine r))

theorem zfill_length (w n : Nat) (h : (Nat.repr n).length ≤ w) :
    (zfill w n).length = w := by
  simp [zfill]
  omega

theorem formatDate_length (d : Date) (hwf : d.Wf)
    (hy : d.year ≤ 9999) : (formatDate d).length = 10 := by
  obtain ⟨h1, h2, h3, h4⟩ := hwf
  have hy4 : (Nat.repr d.year).length ≤ 4 :=
    Nat.repr_length d.year 4 (by omega) (by omega)
  have hm2 : (Nat.repr d.month).length ≤ 2 :=
    Nat.repr_length d.month 2 (by omega) (by omega)
  have hd2 : (Nat.repr d.day).length ≤ 2 :=
    Nat.repr_length d.day 2 (by omega) (by omega)
  have hdash : ("-" : String).length = 1 := rfl
  simp [formatDate, zfill_length 4 d.year hy4, zfill_length 2 d.month hm2,
    zfill_length 2 d.day hd2, hdash]

theorem ljust_take_length (s : String) :
    (ljust (takeChars s 30) 30).length = 30 := by
  have h : (s.data.take 30).length ≤ 30 := by
    simp [List.length_take]
  simp only [ljust, takeChars, String.length_mk, List.length_append,
    List.length_replicate]
  omega

/-- Claim C9: every valid row written to the outbound fixed-width file
yields a line of exactly 41 characters before the newline: a
left-justified 30-character name (truncated if longer), a 10-character
ISO date of birth and a 1-character sex code, with no header and no
delimiter. -/
theorem claimC9 (rows : List FRow)
    (hwf : ∀ r ∈ rows, ∀ d, r.dob = some d → d.Wf) :
    ∀ l ∈ write_fixed_width_lines rows,
      l.length = 41 ∧
      ∃ npart dpart xpart, l = npart ++ dpart ++ xpart
        ∧ npart.length = 30 ∧ dpart.length = 10 ∧ xpart.length = 1 := by
  intro l hl
  simp only [write_fixed_width_lines, List.mem_filterMap] at hl
  obtain ⟨r, hr, hmap⟩ := hl
  have hrmem : r ∈ rows := (List.dedup_sublist rows).subset (List.mem_of_mem_filter hr)
  have hrvalid : validRow r = true := List.of_mem_filter hr
  obtain ⟨d0, hd0⟩ : ∃ d0, r.dob = some d0 := by
    cases hdob : r.dob with
    | none => rw [hdob] at hmap; simp [coerceDob] at hmap
    | some d0 => exact ⟨d0, rfl⟩
  rw [hd0] at hmap
  by_cases hb : 16770921 ≤ d0.key ∧ d0.key ≤ 22620411
  · have hmap2 : formatLine r d0 = l := by
      simpa [coerceDob, toTimestamp, hb] using hmap
    have hdwf : d0.Wf := hwf r hrmem d0 hd0
    have hy : d0.year ≤ 9999 := by
      have h2 := hb.2
      simp [Date.key] at h2
      omega
    have hsex : 0 < (stripStr (pyStr r.sex)).length := by
      simp [validRow] at hrvalid
      tauto
    have hsex1 : (takeChars (stripStr (pyStr r.sex)) 1).length = 1 := by
      simp [takeChars, List.length_take]
      omega
    have hline : l = ljust (takeChars (stripStr (pyStr r.name)) 30) 30 ++ formatDate d0
        ++ takeChars (stripStr (pyStr r.sex)) 1 := by
      rw [← hmap2]
      rfl
    refine ⟨?_, ljust (takeChars (stripStr (pyStr r.name)) 30) 30, formatDate d0,
      takeChars (stripStr (pyStr r.sex)) 1, hline, ljust_take_length _,
      formatDate_length d0 hdwf hy, hsex1⟩
    rw [hline]
    simp [ljust_take_length, formatDate_length d0 hdwf hy, hsex1]
  · rw [show coerceDob (some d0) = none by simp [coerceDob, toTimestamp, hb]] at hmap
    simp at hmap

def sampleFRow : FRow := ⟨some ("JOHN SMITH"), some ⟨2010, 5, 1⟩, some ("M")⟩

theorem claimC9_witness :
    ((write_fixed_width_lines [sampleFRow]).headD (String.mk [])).length = 41 :=
  (claimC9 [sampleFRow] (by decide)
    ((write_fixed_width_lines [sampleFRow]).headD (String.mk [])) (by decide)).1

/-! Core data model of receivedps: the joined DPS x CPS row and the
pandas operations used on it. -/

/-- One row of the DPS import after transform_data: strings are read with
dtype=str and keep_default_na=False, so the name and status columns are
never missing; the date columns are to_datetime-coerced and may be. -/
structure DRow where
  cpsName : String
  cpsDob : Option Date
  lastCont : Option Date
  locateDt : Option Date
  clrCanDt : Option Date
  sts : String
deriving DecidableEq, Repr

/-- One row of the CPS reference sheet after transform_data and
prepare_cps_for_join: Name is astype(str); Person_ID may be missing;
Exited_Care has already received the far-future sentinel for open
episodes, but remains missing when the cell was unparseable. -/
structure CRow where
  name : String
  dob : Option Date
  personId : Option String
  enteredCare : Option Date
  exitedCare : Option Date
deriving DecidableEq, Repr

/-- One row of the joined dataframe. CPS-side fields are missing for
unmatched events. combDate is the CombDate column; it does not exist
before handle_status_and_deduplicate creates it, modelled as none. -/
structure JRow where
  cpsName : String
  cpsDob : Option Date
  lastCont : Option Date
  locateDt : Option Date
  clrCanDt : Option Date
  sts : String
  personId : Option String
  enteredCare : Option Date
  exitedCare : Option Date
  combDate : Option Date
deriving DecidableEq, Repr

/-- prepare_cps_for_join: project to the join fields and drop exact
duplicates (the projection is the whole of CRow here). -/
def prepare_cps_for_join (cs : List CRow) : List CRow := cs.dedup

/-- The CPS rows matching one DPS event on the merge key
(CPS_NAME, CPS_DOB) = (Name, Date_of_Birth). A missing date key matches
a missing date key, as pandas merge does. -/
def joinMatches (cs : List CRow) (d : DRow) : List CRow :=
  cs.filter (fun c => decide (c.name = d.cpsName) && decide (c.dob = d.cpsDob))

/-- The joined row for an unmatched event: person fields missing. -/
def unmatchedRow (d : DRow) : JRow :=
  { cpsName := d.cpsName, cpsDob := d.cpsDob, lastCont := d.lastCont,
    locateDt := d.locateDt, clrCanDt := d.clrCanDt, sts := d.sts,
    personId := none, enteredCare := none, exitedCare := none, combDate := none }

/-- The joined row for an event matched to a CPS person row. -/
def matchedRow (d : DRow) (c : CRow) : JRow :=
  { cpsName := d.cpsName, cpsDob := d.cpsDob, lastCont := d.lastCont,
    locateDt := d.locateDt, clrCanDt := d.clrCanDt, sts := d.sts,
    personId := c.personId, enteredCare := c.enteredCare,
    exitedCare := c.exitedCare, combDate := none }

/-- The rows one DPS event contributes to the left outer merge. -/
def joinOne (cs : List CRow) (d : DRow) : List JRow :=
  if (joinMatches cs d).isEmpty then [unmatchedRow d]
  else (joinMatches cs d).map (matchedRow d)

/-- join_dps_cps: left outer merge on (CPS_NAME, CPS_DOB) =
(Name, Date_of_Birth); every event is retained, with one output row per
matching person row. -/
def join_dps_cps (ds : List DRow) (cs : List CRow) : List JRow :=
  ds.flatMap (joinOne cs)

/-! The age filter (receivedps.filter_valid_cases). -/

def isLeapYear (y : Nat) : Bool :=
  decide (y % 4 = 0) && (decide (y % 100 ≠ 0) || decide (y % 400 = 0))

/-- The string substitution of the month-02-day-29 suffix by month 3
day 1, done on the ISO rendering of the birth date. -/
def adjustFeb29 (d : Date) : Date :=
  if d.month = 2 ∧ d.day = 29 then ⟨d.year, 3, 1⟩ else d

/-- The add_years helper: date.replace with year + n, falling back to
day 28 when Feb 29 of a non-leap target year would be invalid. -/
def addYears (d : Date) (n : Nat) : Date :=
  if d.month = 2 ∧ d.day = 29 ∧ isLeapYear (d.year + n) = false then ⟨d.year + n, 2, 28⟩
  else ⟨d.year + n, d.month, d.day⟩

/-- The DT_turn_18 column: missing birth dates stay missing. -/
def turn18 (dob : Option Date) : Option Date :=
  dob.map (fun d => addYears (adjustFeb29 d) 18)

/-- The row-keeping mask of filter_valid_cases: missing 18th birthday
passes (fail open); otherwise the comparison DT_turn_18 > LAST_CONT with
pandas semantics, false when LAST_CONT is missing. -/
def keepAge (r : JRow) : Bool :=
  match turn18 r.cpsDob, r.lastCont with
  | none, _ => true
  | some t, some lc => decide (lc.key < t.key)
  | some _, none => false

def filter_valid_cases (rows : List JRow) : List JRow := rows.filter keepAge

/-! The episode-window mask (receivedps.handle_status_and_deduplicate,
lines 323-340). -/

def optGe (o : Option Date) (s : Date) : Bool :=
  match o with
  | some d => decide (s.key ≤ d.key)
  | none => false

def optLe (o : Option Date) (s : Date) : Bool :=
  match o with
  | some d => decide (d.key ≤ s.key)
  | none => false

def optLeOpt (a b : Option Date) : Bool :=
  match a, b with
  | some x, some y => decide (x.key ≤ y.key)
  | _, _ => false

/-- The filtering mask, a single boolean expression with pandas
missing-comparison semantics (a comparison on a missing value is false). -/
def episodeMask (r : JRow) (s e : Date) : Bool :=
  (optGe r.lastCont s
    || (optLe r.lastCont s && r.locateDt.isNone && r.clrCanDt.isNone)
    || (optLe r.lastCont s && (optGe r.locateDt s || optGe r.clrCanDt s)))
  && (optLe r.lastCont e
    && optLeOpt r.lastCont r.exitedCare
    && optLeOpt r.enteredCare r.lastCont)

def episodeFilter (rows : List JRow) (s e : Date) : List JRow :=
  rows.filter (fun r => episodeMask r s e)

/-! Stable sorting (pandas multi-key sort_values uses a stable lexsort;
missing keys are placed last). -/

def insertLe {α : Type} (le : α → α → Bool) (a : α) : List α → List α
  | [] => [a]
  | b :: l => if le a b then a :: b :: l else b :: insertLe le a l

def isort {α : Type} (le : α → α → Bool) : List α → List α
  | [] => []
  | a :: l => insertLe le a (isort le l)

theorem insertLe_perm {α : Type} (le : α → α → Bool) (a : α) :
    ∀ l : List α, List.Perm (insertLe le a l) (a :: l)
  | [] => List.Perm.refl _
  | b :: l => by
    simp only [insertLe]
    split
    · exact List.Perm.refl _
    · exact ((insertLe_perm le a l).cons b).trans (List.Perm.swap a b l)

theorem isort_perm {α : Type} (le : α → α → Bool) :
    ∀ l : List α, List.Perm (isort le l) l
  | [] => List.Perm.refl _
  | a :: l => (insertLe_perm le a (isort le l)).trans ((isort_perm le l).cons a)

/-- Ascending comparison on an optional sort key with missing values
last, as pandas na_position last. -/
def cmpOptStrNaLast (a b : Option String) : Ordering :=
  match a, b with
  | none, none => Ordering.eq
  | none, some _ => Ordering.gt
  | some _, none => Ordering.lt
  | some x, some y => compare x y

def cmpOptDateAsc (a b : Option Date) : Ordering :=
  match a, b with
  | none, none => Ordering.eq
  | none, some _ => Ordering.gt
  | some _, none => Ordering.lt
  | some x, some y => compare x.key y.key

/-- Descending date comparison; missing values still last. -/
def cmpOptDateDesc (a b : Option Date) : Ordering :=
  match a, b with
  | none, none => Ordering.eq
  | none, some _ => Ordering.gt
  | some _, none => Ordering.lt
  | some x, some y => compare y.key x.key

def ordNotGt (o : Ordering) : Bool :=
  match o with
  | Ordering.gt => false
  | _ => true

/-- sort_values by Person_ID, LAST_CONT, STS (line 314). -/
def rowLeA (a b : JRow) : Bool :=
  ordNotGt ((cmpOptStrNaLast a.personId b.personId).then
    ((cmpOptDateAsc a.lastCont b.lastCont).then (compare a.sts b.sts)))

/-- sort_values by Person_ID ascending, LAST_CONT descending (line 320). -/
def rowLeB (a b : JRow) : Bool :=
  ordNotGt ((cmpOptStrNaLast a.personId b.personId).then
    (cmpOptDateDesc a.lastCont b.lastCont))

/-- sort_values by Person_ID, LAST_CONT, STS, CombDate (line 353). -/
def rowLeC (a b : JRow) : Bool :=
  ordNotGt ((cmpOptStrNaLast a.personId b.personId).then
    ((cmpOptDateAsc a.lastCont b.lastCont).then
      ((compare a.sts b.sts).then (cmpOptDateAsc a.combDate b.combDate))))

/-! pandas groupby(...).first() with as_index=False: rows with a missing
group key are dropped, groups are ordered by ascending key, and each
output column holds the first non-missing value within the group. -/

def firstSome {α : Type} (l : List (Option α)) : Option α := (l.filterMap id).head?

def headString (l : List String) : String :=
  match l with
  | [] => ""
  | s :: _ => s

/-- Column-wise first pass over a group; the string columns are never
missing, so their first entry is taken as is. -/
def combineCols (g : List JRow) : JRow :=
  { cpsName := headString (g.map (fun r => r.cpsName)),
    cpsDob := firstSome (g.map (fun r => r.cpsDob)),
    lastCont := firstSome (g.map (fun r => r.lastCont)),
    locateDt := firstSome (g.map (fun r => r.locateDt)),
    clrCanDt := firstSome (g.map (fun r => r.clrCanDt)),
    sts := headString (g.map (fun r => r.sts)),
    personId := firstSome (g.map (fun r => r.personId)),
    enteredCare := firstSome (g.map (fun r => r.enteredCare)),
    exitedCare := firstSome (g.map (fun r => r.exitedCare)),
    combDate := firstSome (g.map (fun r => r.combDate)) }

def key12 (r : JRow) : Option (String × Date) :=
  match r.personId, r.lastCont with
  | some p, some d => some (p, d)
  | _, _ => none

def keyLe12 (a b : String × Date) : Bool :=
  decide (a.1 < b.1) || (decide (a.1 = b.1) && decide (a.2.key ≤ b.2.key))

def keyLe1 (a b : String) : Bool := decide (a ≤ b)

def group12 (rows : List JRow) (k : String × Date) : List JRow :=
  rows.filter (fun r => decide (r.personId = some k.1) && decide (r.lastCont = some k.2))

def combine12 (k : String × Date) (g : List JRow) : JRow :=
  { combineCols g with personId := some k.1, lastCont := some k.2 }

/-- groupby(Person_ID, LAST_CONT, as_index=False).first(). -/
def groupbyFirst12 (rows : List JRow) : List JRow :=
  (isort keyLe12 ((rows.filterMap key12).dedup)).map
    (fun k => combine12 k (group12 rows k))

def group1 (rows : List JRow) (k : String) : List JRow :=
  rows.filter (fun r => decide (r.personId = some k))

def combine1 (k : String) (g : List JRow) : JRow :=
  { combineCols g with personId := some k }

/-- groupby(Person_ID, as_index=False).first(). -/
def groupbyFirst1 (rows : List JRow) : List JRow :=
  (isort keyLe1 ((rows.filterMap (fun r => r.personId)).dedup)).map
    (fun k => combine1 k (group1 rows k))

/-! handle_status_and_deduplicate. -/

def recodeRow (r : JRow) : JRow := { r with sts := recodeStatus r.sts }

/-- The CombDate column: LOCATE_DT filled with CLR_CAN_DT. -/
def combOf (r : JRow) : Option Date :=
  match r.locateDt with
  | some d => some d
  | none => r.clrCanDt

def assignComb (r : JRow) : JRow := { r with combDate := combOf r }

/-- handle_status_and_deduplicate: recode the status codes; collapse to
one row per (Person_ID, LAST_CONT) keeping the highest-priority status;
collapse to one row per Person_ID keeping the most recent LAST_CONT;
apply the episode-window mask; drop exact duplicates; create CombDate;
final collapse per (Person_ID, LAST_CONT) sorted by status then
CombDate. -/
def handle_status_and_deduplicate (rows : List JRow) (s e : Date) : List JRow :=
  groupbyFirst12 (isort rowLeC
    (((episodeFilter
          (groupbyFirst1 (isort rowLeB (groupbyFirst12 (isort rowLeA (rows.map recodeRow)))))
          s e).dedup).map assignComb))

/-! Claims about the two filters. -/

theorem episodeMask_iff (r : JRow) (s e : Date) :
    episodeMask r s e = true ↔
      ∃ lc, r.lastCont = some lc ∧
        (s.key ≤ lc.key
          ∨ (lc.key ≤ s.key ∧ r.locateDt = none ∧ r.clrCanDt = none)
          ∨ (lc.key ≤ s.key ∧ ((∃ ld, r.locateDt = some ld ∧ s.key ≤ ld.key)
              ∨ (∃ cd, r.clrCanDt = some cd ∧ s.key ≤ cd.key))))
        ∧ lc.key ≤ e.key
        ∧ (∃ en, r.enteredCare = some en ∧ en.key ≤ lc.key)
        ∧ (∃ ex, r.exitedCare = some ex ∧ lc.key ≤ ex.key) := by
  cases hlc : r.lastCont <;> cases hld : r.locateDt <;> cases hcd : r.clrCanDt <;>
    cases hen : r.enteredCare <;> cases hex : r.exitedCare <;>
      simp [episodeMask, optGe, optLe, optLeOpt, hlc, hld, hcd, hen, hex] <;>
        omega

/-- Claim C1: the episode-window filter keeps a linked row exactly when
the single compound condition holds: (last contact at or after the period
start, or at or before the period start with neither a locate nor a
clearance date, or at or before the period start with a locate or
clearance date at or after the period start), and the last contact is at
or before the period end and lies between entry into care and exit from
care. Comparisons on missing values are false, as in pandas. -/
theorem claimC1 (rows : List JRow) (r : JRow) (s e : Date) :
    r ∈ episodeFilter rows s e ↔
      r ∈ rows ∧ ∃ lc, r.lastCont = some lc ∧
        (s.key ≤ lc.key
          ∨ (lc.key ≤ s.key ∧ r.locateDt = none ∧ r.clrCanDt = none)
          ∨ (lc.key ≤ s.key ∧ ((∃ ld, r.locateDt = some ld ∧ s.key ≤ ld.key)
              ∨ (∃ cd, r.clrCanDt = some cd ∧ s.key ≤ cd.key))))
        ∧ lc.key ≤ e.key
        ∧ (∃ en, r.enteredCare = some en ∧ en.key ≤ lc.key)
        ∧ (∃ ex, r.exitedCare = some ex ∧ lc.key ≤ ex.key) := by
  rw [episodeFilter, List.mem_filter, episodeMask_iff]

def c1Row : JRow :=
  { cpsName := "A", cpsDob := none, lastCont := some ⟨2025, 2, 1⟩,
    locateDt := none, clrCanDt := none, sts := "ACTV",
    personId := some ("P1"), enteredCare := some ⟨2024, 6, 1⟩,
    exitedCare := some ⟨2200, 1, 1⟩, combDate := none }

theorem claimC1_witness :
    c1Row ∈ episodeFilter [c1Row] ⟨2025, 1, 1⟩ ⟨2025, 3, 31⟩ :=
  (claimC1 [c1Row] c1Row ⟨2025, 1, 1⟩ ⟨2025, 3, 31⟩).mpr
    ⟨by decide, ⟨2025, 2, 1⟩, rfl, Or.inl (by decide), by decide,
      ⟨⟨2024, 6, 1⟩, rfl, by decide⟩, ⟨⟨2200, 1, 1⟩, rfl, by decide⟩⟩

/-- Claim C4: the age filter keeps a joined row exactly when the 18th
birthday is unknown (unparsed birth date, fail open) or falls strictly
after the last contact; the 18th birthday is the birth date plus 18
years after substituting Mar 1 for a Feb 29 birth date, so Feb 29, 2000
yields Mar 1, 2018, and a person whose 18th birthday falls exactly on
the last-contact date is excluded. -/
theorem claimC4 :
    (∀ (rows : List JRow) (r : JRow),
      r ∈ filter_valid_cases rows ↔
        r ∈ rows ∧ (turn18 r.cpsDob = none
          ∨ ∃ t lc, turn18 r.cpsDob = some t ∧ r.lastCont = some lc ∧ lc.key < t.key))
    ∧ turn18 (some ⟨2000, 2, 29⟩) = some ⟨2018, 3, 1⟩ := by
  constructor
  · intro rows r
    rw [filter_valid_cases, List.mem_filter]
    refine and_congr_right (fun _ => ?_)
    cases ht : turn18 r.cpsDob with
    | none => simp [keepAge, ht]
    | some t =>
      cases hlc : r.lastCont with
      | none => simp [keepAge, ht, hlc]
      | some lc => simp [keepAge, ht, hlc]
  · decide

theorem claimC4_witness :
    c1Row ∈ filter_valid_cases [c1Row] :=
  (claimC4.1 [c1Row] c1Row).mpr ⟨by decide, Or.inl (by decide)⟩

/-! One row per person: properties of the groupby stages. -/

/-- Distinctness of the person identifier between two rows. -/
def pidNe (a b : JRow) : Prop := a.personId ≠ b.personId

theorem pidNe_symm : ∀ {a b : JRow}, pidNe a b → pidNe b a :=
  fun h e => h e.symm

theorem combine1_pid (k : String) (g : List JRow) :
    (combine1 k g).personId = some k := rfl

theorem combine12_pid (k : String × Date) (g : List JRow) :
    (combine12 k g).personId = some k.1 := rfl

theorem assignComb_pid (r : JRow) : (assignComb r).personId = r.personId := rfl

theorem key12_pid {r : JRow} {k : String × Date} (h : key12 r = some k) :
    r.personId = some k.1 := by
  cases hp : r.personId <;> cases hl : r.lastCont <;>
    simp [key12, hp, hl] at h ⊢
  rw [← h]

/-- The output of groupby by Person_ID has pairwise distinct person
identifiers. -/
theorem groupbyFirst1_pairwise (rows : List JRow) :
    (groupbyFirst1 rows).Pairwise pidNe := by
  rw [groupbyFirst1, List.pairwise_map]
  have hnd : (isort keyLe1 ((rows.filterMap (fun r => r.personId)).dedup)).Nodup :=
    ((isort_perm keyLe1 _).nodup_iff).mpr (List.nodup_dedup _)
  refine hnd.imp ?_
  intro a b hab
  simp only [pidNe, combine1_pid, Ne, Option.some.injEq]
  exact hab

/-- groupby by (Person_ID, LAST_CONT) preserves pairwise distinctness of
person identifiers. -/
theorem groupbyFirst12_pairwise {rows : List JRow} (h : rows.Pairwise pidNe) :
    (groupbyFirst12 rows).Pairwise pidNe := by
  rw [groupbyFirst12, List.pairwise_map]
  have h1 : (rows.filterMap key12).Pairwise (fun k1 k2 => k1.1 ≠ k2.1) := by
    rw [List.pairwise_filterMap]
    refine h.imp ?_
    intro a b hab x hx y hy
    rw [Option.mem_def] at hx hy
    intro e
    exact hab (by rw [key12_pid hx, key12_pid hy, e])
  have h2 : ((rows.filterMap key12).dedup).Pairwise (fun k1 k2 => k1.1 ≠ k2.1) :=
    List.Pairwise.sublist (List.dedup_sublist _) h1
  have h3 := ((isort_perm keyLe12 ((rows.filterMap key12).dedup)).pairwise_iff
    (fun hk e => hk e.symm)).mpr h2
  refine h3.imp ?_
  intro k1 k2 hk
  simp only [pidNe, combine12_pid, Ne, Option.some.injEq]
  exact hk

/-- Every row produced by handle_status_and_deduplicate carries a
present person identifier, and the person identifiers are pairwise
distinct: at most one canonical row per person. -/
theorem handle_dedup_pairwise (rows : List JRow) (s e : Date) :
    (handle_status_and_deduplicate rows s e).Pairwise pidNe := by
  rw [handle_status_and_deduplicate]
  apply groupbyFirst12_pairwise
  apply ((isort_perm rowLeC _).pairwise_iff (fun hk ek => hk ek.symm)).mpr
  rw [List.pairwise_map]
  have hf : (episodeFilter
      (groupbyFirst1 (isort rowLeB (groupbyFirst12 (isort rowLeA (rows.map recodeRow)))))
      s e).Pairwise pidNe :=
    List.Pairwise.sublist (List.filter_sublist _) (groupbyFirst1_pairwise _)
  have hfd := List.Pairwise.sublist (List.dedup_sublist _) hf
  refine hfd.imp ?_
  intro a b hab
  simpa only [pidNe, assignComb_pid] using hab

theorem handle_dedup_pid_present (rows : List JRow) (s e : Date) :
    ∀ r ∈ handle_status_and_deduplicate rows s e, r.personId ≠ none := by
  intro r hr
  rw [handle_status_and_deduplicate, groupbyFirst12, List.mem_map] at hr
  obtain ⟨k, _, rfl⟩ := hr
  rw [combine12_pid]
  exact Option.some_ne_none k.1

/-! Resolution as the claim words it, for comparison with the code. -/

/-- Strictly better under the claimed phase-one rule: lower recoded
status string, ties broken by the earlier combined locate/clear date. -/
def betterStatusComb (r a : JRow) : Bool :=
  ((compare r.sts a.sts).then (cmpOptDateAsc r.combDate a.combDate)) == Ordering.lt

/-- Strictly better under the claimed phase-two rule: the more recent
last-contact date. -/
def betterRecent (r a : JRow) : Bool :=
  (cmpOptDateDesc r.lastCont a.lastCont) == Ordering.lt

/-- Pick the best element of a group, keeping the earlier row on ties. -/
def pickBy (better : JRow → JRow → Bool) : List JRow → Option JRow
  | [] => none
  | a :: l => some (l.foldl (fun acc r => if better r acc then r else acc) a)

/-- Resolution exactly as the claim describes it: recode statuses,
attach the combined locate/clear date, then within each
(person, last-contact) group keep the row with the lowest status
priority with remaining ties broken by the earliest combined date, then
per person keep the row with the most recent last contact. -/
def resolveAsClaimed (rows : List JRow) : List JRow :=
  ((isort keyLe1
    ((((isort keyLe12 (((rows.map recodeRow).map assignComb).filterMap key12 |>.dedup)).filterMap
        (fun k => pickBy betterStatusComb (group12 ((rows.map recodeRow).map assignComb) k))).filterMap
      (fun r => r.personId)).dedup)).filterMap
    (fun k => pickBy betterRecent
      (group1 ((isort keyLe12 (((rows.map recodeRow).map assignComb).filterMap key12 |>.dedup)).filterMap
        (fun k2 => pickBy betterStatusComb (group12 ((rows.map recodeRow).map assignComb) k2))) k)))

/-! Concrete rows for the deduplication claims. -/

def periodStart : Date := ⟨2025, 1, 1⟩

def periodEnd : Date := ⟨2025, 3, 31⟩

/-- Scenario row with status LOC, all fields populated. -/
def locRow : JRow :=
  { cpsName := "SMITHMARYJANE", cpsDob := some ⟨2010, 5, 1⟩,
    lastCont := some ⟨2025, 2, 1⟩, locateDt := some ⟨2025, 2, 15⟩,
    clrCanDt := none, sts := "LOC", personId := some ("P1"),
    enteredCare := some ⟨2024, 6, 1⟩, exitedCare := some ⟨2200, 1, 1⟩,
    combDate := none }

/-- The same contact event reported with status ACTV. -/
def actvRow : JRow := { locRow with sts := "ACTV" }

/-- Two rows tied on person, last contact and status, differing only in
their locate date: the first carries the later locate date. -/
def rowTieA : JRow := { locRow with sts := "ACTV", locateDt := some ⟨2025, 3, 2⟩ }

def rowTieB : JRow := { locRow with sts := "ACTV", locateDt := some ⟨2025, 3, 1⟩ }

/-- Claim C2 as stated is refuted: on two rows tied on (person_id,
last_contact, status), the claim's phase-one rule keeps the row with the
earliest combined locate/clear date (Mar 1), but the code resolves the
tie by input position and emits the Mar 2 locate date: the combined-date
tiebreak only runs after the per-person collapse, where every group is a
singleton. -/
theorem claimC2_counterexample :
    (handle_status_and_deduplicate [rowTieA, rowTieB] periodStart periodEnd).map
        (fun r => r.locateDt) = [some ⟨2025, 3, 2⟩]
    ∧ (resolveAsClaimed [rowTieA, rowTieB]).map
        (fun r => r.locateDt) = [some ⟨2025, 3, 1⟩] := by
  constructor
  · decide
  · decide

/-- Claim C2 (amended): within each (person_id, last_contact) group the
row with the lowest recoded status survives, with remaining ties broken
by first position in the stably sorted input (not by combined date; the
combined-date sort is applied only in a final pass over singleton
groups, where it has no effect) and non-key columns taken as the first
non-missing value of the group; grouping by person_id then keeps the
most recent last contact, yielding pairwise-distinct person identifiers
in the output. For two rows with the same person_id and last-contact
date with statuses LOC and ACTV, only the LOC row, recoded 1LOC, is
kept. -/
theorem claimC2 :
    (∀ (rows : List JRow) (s e : Date),
      (handle_status_and_deduplicate rows s e).Pairwise pidNe)
    ∧ handle_status_and_deduplicate [locRow, actvRow] periodStart periodEnd
        = [{ locRow with sts := "1LOC", combDate := some ⟨2025, 2, 15⟩ }]
    ∧ handle_status_and_deduplicate [actvRow, locRow] periodStart periodEnd
        = [{ locRow with sts := "1LOC", combDate := some ⟨2025, 2, 15⟩ }] := by
  refine ⟨handle_dedup_pairwise, by decide, by decide⟩

theorem claimC2_witness :
    (handle_status_and_deduplicate [locRow, actvRow] periodStart periodEnd).Pairwise pidNe :=
  claimC2.1 [locRow, actvRow] periodStart periodEnd

/-! Claim C3: unmatched events through the pipeline. -/

/-- A DPS event that matches no CPS person. -/
def soloEvent : DRow :=
  { cpsName := "NOBODY", cpsDob := some ⟨2010, 1, 1⟩,
    lastCont := some ⟨2025, 2, 1⟩, locateDt := none, clrCanDt := none,
    sts := "ACTV" }

/-- Claim C3 as stated is refuted: the join retains the unmatched event
(one output row with missing person fields), yet the deduplication stage
drops it — groupby omits rows with a missing Person_ID and the episode
mask fails on missing episode dates — so it reaches no output report. -/
theorem claimC3_counterexample :
    (join_dps_cps [soloEvent] []).length = 1
    ∧ (join_dps_cps [soloEvent] []).all (fun r => r.personId == none)
    ∧ handle_status_and_deduplicate
        (filter_valid_cases (join_dps_cps [soloEvent] []))
        periodStart periodEnd = [] := by
  refine ⟨by decide, by decide, by decide⟩

/-- Claim C3 (amended): the join itself never drops a row — every
EventRecord yields at least one joined row, with missing person fields
when unmatched — but rows with a missing person identifier are dropped
by the deduplication stage, so unmatched events do not appear in the
output reports. -/
theorem claimC3 :
    (∀ (ds : List DRow) (cs : List CRow), ds.length ≤ (join_dps_cps ds cs).length)
    ∧ (∀ (rows : List JRow) (s e : Date) (r : JRow),
        r ∈ handle_status_and_deduplicate rows s e → r.personId ≠ none) := by
  constructor
  · intro ds cs
    have hone : ∀ d : DRow, 1 ≤ (joinOne cs d).length := by
      intro d
      rw [joinOne]
      split
      · simp
      · next hne =>
        rw [List.length_map]
        cases hfil : joinMatches cs d with
        | nil => exact absurd (by rw [hfil]; rfl) hne
        | cons a l => simp
    induction ds with
    | nil => simp [join_dps_cps]
    | cons d ds ih =>
      rw [join_dps_cps, List.flatMap_cons, List.length_append]
      rw [join_dps_cps] at ih
      have := hone d
      simp only [List.length_cons]
      omega
  · intro rows s e r hr
    exact handle_dedup_pid_present rows s e r hr

theorem claimC3_witness :
    1 ≤ (join_dps_cps [soloEvent] []).length
    ∧ ({ locRow with sts := "1LOC", combDate := some ⟨2025, 2, 15⟩ } : JRow).personId ≠ none := by
  constructor
  · exact claimC3.1 [soloEvent] []
  · exact claimC3.2 [locRow, actvRow] periodStart periodEnd _ (by decide)

/-! Report 2, DPS cases not in IMPACT
(receivedps.generate_output_files, lines 386-403). -/

/-- One row of the toad_subset lookup: Person_ID (astype str),
Legal_County and Name. -/
structure T3Row where
  pid : String
  legalCounty : Option String
  toadName : Option String
deriving DecidableEq, Repr

/-- One row of the county-to-region lookup. -/
structure CntyRow where
  county : Option String
  region : Option String
deriving DecidableEq, Repr

/-- One output row of the report: the retained case row plus the merged
county, name and region columns and the blank manual-review column. -/
structure NIRow where
  base : JRow
  legalCounty : Option String
  toadName : Option String
  legalRegion : Option String
  outcome : String
deriving DecidableEq, Repr

/-- Left merge of one retained row against toad_subset on Person_ID,
both sides astype(str): a missing value renders as the string nan. -/
def mergeToad (r : JRow) (toad : List T3Row) : List (Option String × Option String) :=
  if (toad.filter (fun t => decide (t.pid = pyStr r.personId))).isEmpty then [(none, none)]
  else (toad.filter (fun t => decide (t.pid = pyStr r.personId))).map
    (fun t => (t.legalCounty, t.toadName))

/-- Left merge of a county value against the county-to-region lookup:
an unmatched county yields a missing region, not a dropped row. -/
def mergeCnty (lc : Option String) (cnty : List CntyRow) : List (Option String) :=
  if (cnty.filter (fun c => decide (c.county = lc))).isEmpty then [none]
  else (cnty.filter (fun c => decide (c.county = lc))).map (fun c => c.region)

/-- Output 2 of generate_output_files: rows of dps_total whose Person_ID
is not in the CHILD_PID column of sa_98 (direct isin on the raw values),
merged left against toad_subset and the county lookup, with an empty
Outcome column appended. -/
def report2_not_in_impact (dps : List JRow) (childPids : List (Option String))
    (toad : List T3Row) (cnty : List CntyRow) : List NIRow :=
  (dps.filter (fun r => ! childPids.contains r.personId)).flatMap (fun r =>
    (mergeToad r toad).flatMap (fun p =>
      (mergeCnty p.1 cnty).map (fun reg =>
        { base := r, legalCounty := p.1, toadName := p.2, legalRegion := reg,
          outcome := "" })))

/-- The membership test as the claim words it: both sides coerced to a
whitespace-trimmed string rendering before comparison. -/
def notInRosterAsClaimed (dps : List JRow) (childPids : List (Option String)) : List JRow :=
  dps.filter (fun r =>
    ! (childPids.map (fun p => stripStr (pyStr p))).contains (stripStr (pyStr r.personId)))

/-- A canonical case row whose person identifier carries a leading
space. -/
def spacedRow : JRow := { locRow with personId := some (" 123") }

/-- Claim C6 as stated is refuted: for a case row with person identifier
containing a leading space and a roster carrying the trimmed identifier,
the claimed whitespace-trimmed membership test excludes the row from the
report, but the code compares the raw values and keeps it. -/
theorem claimC6_counterexample :
    notInRosterAsClaimed [spacedRow] [some ("123")] = []
    ∧ report2_not_in_impact [spacedRow] [some ("123")] [] [] ≠ [] := by
  refine ⟨by decide, by decide⟩

theorem mergeToad_ne_nil (r : JRow) (toad : List T3Row) : mergeToad r toad ≠ [] := by
  rw [mergeToad]
  split
  · simp
  · next hne =>
    cases hfil : toad.filter (fun t => decide (t.pid = pyStr r.personId)) with
    | nil => exact absurd (by rw [hfil]; rfl) hne
    | cons a l => simp [hfil]

theorem mergeCnty_ne_nil (lc : Option String) (cnty : List CntyRow) :
    mergeCnty lc cnty ≠ [] := by
  rw [mergeCnty]
  split
  · simp
  · next hne =>
    cases hfil : cnty.filter (fun c => decide (c.county = lc)) with
    | nil => exact absurd (by rw [hfil]; rfl) hne
    | cons a l => simp [hfil]

/-- Claim C6 (amended): the report contains exactly those canonical case
rows whose Person_ID is absent from the roster's CHILD_PID set under
direct value equality — no string coercion or whitespace trimming is
applied at the membership test — and retained rows are enriched by left
joins in which an unmatched county yields a missing region rather than a
dropped row, with an empty manual-review column appended. -/
theorem claimC6 (dps : List JRow) (childPids : List (Option String))
    (toad : List T3Row) (cnty : List CntyRow) :
    (∀ r : JRow,
      (∃ x ∈ report2_not_in_impact dps childPids toad cnty, x.base = r)
        ↔ (r ∈ dps ∧ r.personId ∉ childPids))
    ∧ (∀ x ∈ report2_not_in_impact dps childPids toad cnty,
        (∀ c ∈ cnty, c.county ≠ x.legalCounty) → x.legalRegion = none)
    ∧ (∀ x ∈ report2_not_in_impact dps childPids toad cnty, x.outcome = "") := by
  refine ⟨?_, ?_, ?_⟩
  · intro r
    constructor
    · rintro ⟨x, hx, hbase⟩
      rw [report2_not_in_impact, List.mem_flatMap] at hx
      obtain ⟨r0, hr0, hx⟩ := hx
      rw [List.mem_flatMap] at hx
      obtain ⟨p, _, hx⟩ := hx
      rw [List.mem_map] at hx
      obtain ⟨reg, _, rfl⟩ := hx
      rw [List.mem_filter] at hr0
      have hb : r0 = r := hbase
      subst hb
      refine ⟨hr0.1, ?_⟩
      intro hmem
      have hc := hr0.2
      simp only [List.contains, List.elem_eq_mem, Bool.not_eq_eq_eq_not, Bool.not_true,
        decide_eq_false_iff_not] at hc
      exact hc hmem
    · rintro ⟨hmem, hnot⟩
      have hr : r ∈ dps.filter (fun r => ! childPids.contains r.personId) := by
        rw [List.mem_filter]
        refine ⟨hmem, ?_⟩
        simp only [List.contains, List.elem_eq_mem, Bool.not_eq_eq_eq_not, Bool.not_true,
          decide_eq_false_iff_not]
        exact hnot
      obtain ⟨p, hp⟩ := List.exists_mem_of_ne_nil _ (mergeToad_ne_nil r toad)
      obtain ⟨reg, hreg⟩ := List.exists_mem_of_ne_nil _ (mergeCnty_ne_nil p.1 cnty)
      refine ⟨{ base := r, legalCounty := p.1, toadName := p.2,
                legalRegion := reg, outcome := "" }, ?_, rfl⟩
      rw [report2_not_in_impact, List.mem_flatMap]
      refine ⟨r, hr, ?_⟩
      rw [List.mem_flatMap]
      refine ⟨p, hp, ?_⟩
      rw [List.mem_map]
      exact ⟨reg, hreg, rfl⟩
  · intro x hx hnone
    rw [report2_not_in_impact, List.mem_flatMap] at hx
    obtain ⟨r0, _, hx⟩ := hx
    rw [List.mem_flatMap] at hx
    obtain ⟨p, _, hx⟩ := hx
    rw [List.mem_map] at hx
    obtain ⟨reg, hreg, rfl⟩ := hx
    have hfil : cnty.filter (fun c => decide (c.county = p.1)) = [] := by
      rw [List.filter_eq_nil_iff]
      intro c hc
      simp only [decide_eq_true_eq]
      exact fun hcc => hnone c hc (by rw [hcc])
    rw [mergeCnty, hfil] at hreg
    simpa using hreg
  · intro x hx
    rw [report2_not_in_impact, List.mem_flatMap] at hx
    obtain ⟨r0, _, hx⟩ := hx
    rw [List.mem_flatMap] at hx
    obtain ⟨p, _, hx⟩ := hx
    rw [List.mem_map] at hx
    obtain ⟨reg, _, rfl⟩ := hx
    rfl

theorem claimC6_witness :
    ∃ x ∈ report2_not_in_impact [spacedRow] [] [] [], x.base = spacedRow :=
  ((claimC6 [spacedRow] [] [] []).1 spacedRow).mpr ⟨by simp, by simp⟩
